import Mathlib

/-!
Verification of the Pong bare-metal kernel (src/kernel/src): a shallow
embedding of the game state machine (`tick`, `key` from main.rs), the bump
allocator (allocator.rs) and the ball rendering primitive (screen.rs),
together with theorems settling the spec claims.
-/

set_option maxRecDepth 4096

/-- Constant `PADDLE_WIDTH` from main.rs. -/
def PADDLE_WIDTH : Nat := 10

/-- Constant `PADDLE_HEIGHT` from main.rs. -/
def PADDLE_HEIGHT : Nat := 60

/-- Constant `BALL_SIZE` from main.rs. -/
def BALL_SIZE : Nat := 8

/-- Game state: the mutable statics of main.rs (`BALL_X`, `BALL_Y`,
`BALL_SPEED_X`, `BALL_SPEED_Y`, `PADDLE_LEFT`, `PADDLE_RIGHT`,
`LEFT_SCORE`, `RIGHT_SCORE`, `GAME_STATE`).  Positions are `usize`
(here `Nat`), speeds `isize` (here `Int`), scores and the phase flag
`AtomicI32` (here `Int`; `gameState` is 0 while playing, 1 once ended). -/
structure GameState where
  ballX : Nat
  ballY : Nat
  velX : Int
  velY : Int
  paddleL : Nat
  paddleR : Nat
  scoreL : Int
  scoreR : Int
  gameState : Int
deriving DecidableEq

/-- Initial values of the statics in main.rs (lines 29-40). -/
def initGameState : GameState :=
  { ballX := 200, ballY := 150, velX := 5, velY := 3,
    paddleL := 100, paddleR := 100, scoreL := 0, scoreR := 0, gameState := 0 }

/-- The timer callback `tick` of main.rs restricted to its effect on the
game state (drawing calls omitted).  `w`/`h` are `screenwriter().width()`
and `screenwriter().height()`.  When `GAME_STATE == 1` the body only
prints the win message and returns, leaving the state unchanged.
Otherwise the projected position `(nx, ny)` is computed in `isize`
arithmetic; off the left edge the right player scores and the ball
respawns with speed `(5, 3)`; past the right edge the left player scores
and the ball respawns with speed `(-5, -3)`; in either case the phase
flag is set once the new score reaches 3.  Otherwise the ball moves to
the projected x, the y is clamped to `[0, h - BALL_SIZE]` inverting
`velY` on a clamp, and the paddle checks against the projected position
invert `velX` (right paddle first, with a 15 pixel lookahead margin). -/
def tick (w h : Nat) (s : GameState) : GameState :=
  if s.gameState = 1 then s
  else
    let nx : Int := (s.ballX : Int) + s.velX
    let ny : Int := (s.ballY : Int) + s.velY
    if nx < 0 then
      let rs := s.scoreR + 1
      { ballX := w / 2, ballY := h / 2, velX := 5, velY := 3,
        paddleL := s.paddleL, paddleR := s.paddleR,
        scoreL := s.scoreL, scoreR := rs,
        gameState := if 3 ≤ rs then 1 else s.gameState }
    else if (w : Int) < nx + (BALL_SIZE : Int) then
      let ls := s.scoreL + 1
      { ballX := w / 2, ballY := h / 2, velX := -5, velY := -3,
        paddleL := s.paddleL, paddleR := s.paddleR,
        scoreL := ls, scoreR := s.scoreR,
        gameState := if 3 ≤ ls then 1 else s.gameState }
    else
      let bx : Nat := nx.toNat
      let bY : Nat :=
        if ny < 0 then 0
        else if (h : Int) < ny + (BALL_SIZE : Int) then h - BALL_SIZE
        else ny.toNat
      let vy : Int :=
        if ny < 0 then -s.velY
        else if (h : Int) < ny + (BALL_SIZE : Int) then -s.velY
        else s.velY
      let vx : Int :=
        if 0 < s.velX ∧ (w : Int) - (PADDLE_WIDTH : Int) ≤ nx + ((BALL_SIZE + 15 : Nat) : Int) ∧
            (s.paddleR : Int) < ny + (BALL_SIZE : Int) ∧ ny < ((s.paddleR + PADDLE_HEIGHT : Nat) : Int) then
          -s.velX
        else if s.velX < 0 ∧ nx ≤ ((PADDLE_WIDTH + 15 : Nat) : Int) ∧
            (s.paddleL : Int) < ny + (BALL_SIZE : Int) ∧ ny < ((s.paddleL + PADDLE_HEIGHT : Nat) : Int) then
          -s.velX
        else s.velX
      { ballX := bx, ballY := bY, velX := vx, velY := vy,
        paddleL := s.paddleL, paddleR := s.paddleR,
        scoreL := s.scoreL, scoreR := s.scoreR, gameState := s.gameState }

/-- The `DecodedKey` values distinguished by the keyboard callback of
main.rs: a unicode character, the two arrow keys it matches on, or any
other raw key (ignored). -/
inductive DecodedKey where
  | unicode (c : Char)
  | rawArrowUp
  | rawArrowDown
  | rawOther
deriving DecidableEq

/-- The keyboard callback `key` of main.rs restricted to its effect on the
game state (drawing calls omitted).  While `GAME_STATE == 1` only the
character `r` is recognized: it resets scores to 0, re-centers the ball
with speed `(5, 3)`, sets the paddles to 100 and 500 and re-enters play.
While playing, `w`/`W` and `s`/`S` move the left paddle and the arrow
keys the right paddle by 25, guarded by `25 < y` upward and
`y + 75 < h` downward. -/
def key (w h : Nat) (k : DecodedKey) (s : GameState) : GameState :=
  if s.gameState = 1 then
    match k with
    | DecodedKey.unicode 'r' =>
      { ballX := w / 2, ballY := h / 2, velX := 5, velY := 3,
        paddleL := 100, paddleR := 500, scoreL := 0, scoreR := 0, gameState := 0 }
    | _ => s
  else
    match k with
    | DecodedKey.unicode c =>
      if c = 'W' ∨ c = 'w' then
        if 25 < s.paddleL then { s with paddleL := s.paddleL - 25 } else s
      else if c = 'S' ∨ c = 's' then
        if s.paddleL + 75 < h then { s with paddleL := s.paddleL + 25 } else s
      else s
    | DecodedKey.rawArrowUp =>
      if 25 < s.paddleR then { s with paddleR := s.paddleR - 25 } else s
    | DecodedKey.rawArrowDown =>
      if s.paddleR + 75 < h then { s with paddleR := s.paddleR + 25 } else s
    | DecodedKey.rawOther => s

/-- Claim C8: with width 640 and height 480, a tick from a playing state
with the ball at `x = 2`, `velX = -5`, `y = 100` and neither paddle
covering `y = 100` increments the right score to 1 and re-centers the
ball at `(320, 240)` with the canonical rightward/downward velocity
`(5, 3)`. -/
theorem C8_scenario :
    tick 640 480
      { ballX := 2, ballY := 100, velX := -5, velY := 3,
        paddleL := 300, paddleR := 300, scoreL := 0, scoreR := 0, gameState := 0 } =
      { ballX := 320, ballY := 240, velX := 5, velY := 3,
        paddleL := 300, paddleR := 300, scoreL := 0, scoreR := 1, gameState := 0 } := by
  decide

/-- Claim C1, counterexample: at width 640, from a playing state with the
ball at `x = 615`, `velX = 20` and the projected y inside the right
paddle's band (`paddleR = 100`, `ny = 103`), the tick does not register a
paddle bounce: `velX` afterwards is `-5`, not the inverted `-20`, and the
left score changed (the right-edge scoring branch fired first). -/
theorem C1_counterexample :
    (tick 640 480
      { ballX := 615, ballY := 100, velX := 20, velY := 3,
        paddleL := 100, paddleR := 100, scoreL := 0, scoreR := 0, gameState := 0 }).velX = -5 ∧
    ¬ ((tick 640 480
      { ballX := 615, ballY := 100, velX := 20, velY := 3,
        paddleL := 100, paddleR := 100, scoreL := 0, scoreR := 0, gameState := 0 }).velX = -(20 : Int) ∧
       (tick 640 480
      { ballX := 615, ballY := 100, velX := 20, velY := 3,
        paddleL := 100, paddleR := 100, scoreL := 0, scoreR := 0, gameState := 0 }).scoreL = 0) := by
  decide

/-- Claim C1 as amended: at width 640, a tick from a playing state with
the ball at `x = 615` and `velX = 20` (y-band hypotheses of the scenario
included) takes the right-edge scoring branch before any paddle check:
the left score increments by 1 and the ball respawns at the center with
`velX = -5`.  So `velX` is negative afterwards and the ball is not
placed past the paddle, but through a scoring respawn, not a bounce. -/
theorem C1_amended_scoring_preempts_bounce (s : GameState)
    (hplay : s.gameState = 0) (hx : s.ballX = 615) (hv : s.velX = 20)
    (hband1 : (s.paddleR : Int) < (s.ballY : Int) + s.velY + (BALL_SIZE : Int))
    (hband2 : (s.ballY : Int) + s.velY < ((s.paddleR + PADDLE_HEIGHT : Nat) : Int)) :
    (tick 640 480 s).velX = -5 ∧ (tick 640 480 s).ballX = 320 ∧
    (tick 640 480 s).scoreL = s.scoreL + 1 := by
  simp only [tick, hplay, hx, hv, BALL_SIZE]
  norm_num

/-- Claim C1 witness: the amended theorem applied at the concrete
counterexample state. -/
theorem C1_witness :
    (tick 640 480
      { ballX := 615, ballY := 100, velX := 20, velY := 3,
        paddleL := 100, paddleR := 100, scoreL := 0, scoreR := 0, gameState := 0 }).velX = -5 ∧
    (tick 640 480
      { ballX := 615, ballY := 100, velX := 20, velY := 3,
        paddleL := 100, paddleR := 100, scoreL := 0, scoreR := 0, gameState := 0 }).ballX = 320 ∧
    (tick 640 480
      { ballX := 615, ballY := 100, velX := 20, velY := 3,
        paddleL := 100, paddleR := 100, scoreL := 0, scoreR := 0, gameState := 0 }).scoreL = 0 + 1 :=
  C1_amended_scoring_preempts_bounce
    { ballX := 615, ballY := 100, velX := 20, velY := 3,
      paddleL := 100, paddleR := 100, scoreL := 0, scoreR := 0, gameState := 0 }
    rfl rfl rfl (by decide) (by decide)

/-- Claim C2: every tick from a playing state leaves the ball inside the
screen, `ballX < w` and `ballY < h` (the lower bounds hold because the
coordinates are natural numbers): out-of-range projected coordinates are
either clamped or turned into a scoring respawn at the center. -/
theorem C2_ball_in_bounds (w h : Nat) (s : GameState)
    (hplay : s.gameState = 0) (hw : 0 < w) (hh : BALL_SIZE ≤ h) :
    (tick w h s).ballX < w ∧ (tick w h s).ballY < h := by
  simp only [tick, hplay, BALL_SIZE, PADDLE_WIDTH, PADDLE_HEIGHT] at *
  norm_num
  split_ifs with h1 h2 h3 h4 h5 h6 <;> simp only [] <;> constructor <;> omega

/-- Claim C2 witness: the bounds theorem applied at width 640, height 480
and the initial game state. -/
theorem C2_witness :
    (tick 640 480 initGameState).ballX < 640 ∧ (tick 640 480 initGameState).ballY < 480 :=
  C2_ball_in_bounds 640 480 initGameState rfl (by decide) (by decide)

/-- Claim C3: for a tick from a playing state in which neither score has
reached 3 yet, a boundary crossing off the left edge increments exactly
the right score by 1 (the left score is unchanged) and the phase flag
becomes `Finished` (1) exactly when that score reaches 3; symmetrically a
crossing past the right edge increments exactly the left score; and a
tick with no boundary crossing changes neither score and stays playing. -/
theorem C3_scoring_and_win (w h : Nat) (s : GameState)
    (hplay : s.gameState = 0) (hL : s.scoreL ≤ 2) (hR : s.scoreR ≤ 2) :
    (((s.ballX : Int) + s.velX < 0 →
        (tick w h s).scoreR = s.scoreR + 1 ∧ (tick w h s).scoreL = s.scoreL ∧
        ((tick w h s).gameState = 1 ↔ (tick w h s).scoreR = 3)) ∧
     (0 ≤ (s.ballX : Int) + s.velX → (w : Int) < (s.ballX : Int) + s.velX + (BALL_SIZE : Int) →
        (tick w h s).scoreL = s.scoreL + 1 ∧ (tick w h s).scoreR = s.scoreR ∧
        ((tick w h s).gameState = 1 ↔ (tick w h s).scoreL = 3)) ∧
     (0 ≤ (s.ballX : Int) + s.velX → (s.ballX : Int) + s.velX + (BALL_SIZE : Int) ≤ (w : Int) →
        (tick w h s).scoreL = s.scoreL ∧ (tick w h s).scoreR = s.scoreR ∧
        (tick w h s).gameState = 0)) := by
  refine ⟨fun hnx => ?_, fun hnx hgt => ?_, fun hnx hle => ?_⟩ <;>
    simp only [tick, hplay, BALL_SIZE, PADDLE_WIDTH, PADDLE_HEIGHT] at * <;>
    split_ifs <;> (try dsimp only) <;> omega

/-- Claim C3 witness: the scoring theorem applied at width 640, height
480 and the initial game state, whose tick crosses no boundary. -/
theorem C3_witness :
    (tick 640 480 initGameState).scoreL = initGameState.scoreL ∧
    (tick 640 480 initGameState).scoreR = initGameState.scoreR ∧
    (tick 640 480 initGameState).gameState = 0 :=
  (C3_scoring_and_win 640 480 initGameState rfl (by decide) (by decide)).2.2
    (by decide) (by decide)

/-- Claim C4, evaluation at the failing input: with height 480, pressing
the `s` key thirteen times from the initial state moves the left paddle
to `y = 425` (each press passes the `y + 75 < 480` guard, the last one
because `400 + 75 = 475 < 480`), and there `y + PADDLE_HEIGHT = 485`
exceeds the screen height 480: the paddle rectangle does not stay fully
on-screen after every keyboard event. -/
theorem C4_paddle_exceeds_screen :
    ((key 640 480 (DecodedKey.unicode 's'))^[13] initGameState).paddleL = 425 ∧
    480 < ((key 640 480 (DecodedKey.unicode 's'))^[13] initGameState).paddleL + PADDLE_HEIGHT := by
  decide

/-- Claim C6, counterexample: a restart input in a Finished state does
not restore the canonical startup constants: the right paddle comes back
at 500 while the startup static is 100, and at width 640 the ball comes
back at x = 320 while the startup static is 200. -/
theorem C6_counterexample :
    (key 640 480 (DecodedKey.unicode 'r')
      { ballX := 50, ballY := 60, velX := -5, velY := 3,
        paddleL := 75, paddleR := 200, scoreL := 3, scoreR := 1, gameState := 1 }).paddleR ≠
      initGameState.paddleR ∧
    (key 640 480 (DecodedKey.unicode 'r')
      { ballX := 50, ballY := 60, velX := -5, velY := 3,
        paddleL := 75, paddleR := 200, scoreL := 3, scoreR := 1, gameState := 1 }).ballX ≠
      initGameState.ballX := by
  decide

/-- Claim C6 as amended: a restart input received while Finished yields
one fixed state — ball at the screen center `(w / 2, h / 2)` with
velocity `(5, 3)`, left paddle 100, right paddle 500, both scores 0,
phase Playing — identical regardless of the trajectory that preceded the
reset; this reset state is not the startup state (startup has the ball at
`(200, 150)` and the right paddle at 100). -/
theorem C6_reset_canonical (w h : Nat) (s : GameState) (hfin : s.gameState = 1) :
    key w h (DecodedKey.unicode 'r') s =
      { ballX := w / 2, ballY := h / 2, velX := 5, velY := 3,
        paddleL := 100, paddleR := 500, scoreL := 0, scoreR := 0, gameState := 0 } := by
  simp [key, hfin]

/-- Claim C6 witness: the reset theorem applied at a concrete Finished
state reached with the left player at 3 points. -/
theorem C6_witness :
    key 640 480 (DecodedKey.unicode 'r')
      { ballX := 320, ballY := 240, velX := -5, velY := -3,
        paddleL := 25, paddleR := 475, scoreL := 3, scoreR := 2, gameState := 1 } =
      { ballX := 320, ballY := 240, velX := 5, velY := 3,
        paddleL := 100, paddleR := 500, scoreL := 0, scoreR := 0, gameState := 0 } :=
  C6_reset_canonical 640 480
    { ballX := 320, ballY := 240, velX := -5, velY := -3,
      paddleL := 25, paddleR := 475, scoreL := 3, scoreR := 2, gameState := 1 } rfl

/-- Claim C7, counterexample: with the ball crossing the left edge
(`x = 2`, `velX = -5`, so the left side conceded the point), the respawn
velocity is `velX = 5`, pointing toward the right side — the side that
just scored — and not toward the conceding left side (which would need
`velX < 0`). -/
theorem C7_counterexample :
    (tick 640 480
      { ballX := 2, ballY := 101, velX := -5, velY := 3,
        paddleL := 310, paddleR := 310, scoreL := 1, scoreR := 0, gameState := 0 }).velX = 5 ∧
    ¬ (tick 640 480
      { ballX := 2, ballY := 101, velX := -5, velY := 3,
        paddleL := 310, paddleR := 310, scoreL := 1, scoreR := 0, gameState := 0 }).velX < 0 := by
  decide

/-- Claim C7 as amended: after every scoring event the ball respawns at
the screen center with the canonical speed magnitudes, horizontally
directed toward the side that just scored, i.e. away from the edge the
ball crossed: off the left edge the right player scores and the ball
restarts with velocity `(5, 3)`; past the right edge the left player
scores and the ball restarts with velocity `(-5, -3)`. -/
theorem C7_respawn_toward_scorer (w h : Nat) (s : GameState) (hplay : s.gameState = 0) :
    ((s.ballX : Int) + s.velX < 0 →
      tick w h s =
        { ballX := w / 2, ballY := h / 2, velX := 5, velY := 3,
          paddleL := s.paddleL, paddleR := s.paddleR,
          scoreL := s.scoreL, scoreR := s.scoreR + 1,
          gameState := if 3 ≤ s.scoreR + 1 then 1 else 0 }) ∧
    (0 ≤ (s.ballX : Int) + s.velX → (w : Int) < (s.ballX : Int) + s.velX + (BALL_SIZE : Int) →
      tick w h s =
        { ballX := w / 2, ballY := h / 2, velX := -5, velY := -3,
          paddleL := s.paddleL, paddleR := s.paddleR,
          scoreL := s.scoreL + 1, scoreR := s.scoreR,
          gameState := if 3 ≤ s.scoreL + 1 then 1 else 0 }) := by
  constructor
  · intro hnx
    simp only [tick, hplay, BALL_SIZE] at *
    rw [if_neg (by omega), if_pos hnx]
  · intro hnx hgt
    simp only [tick, hplay, BALL_SIZE] at *
    rw [if_neg (by omega), if_neg (by omega), if_pos (by omega)]

/-- Claim C7 witness: the respawn theorem applied at a concrete state
whose projected x crosses the left edge. -/
theorem C7_witness :
    tick 640 480
      { ballX := 3, ballY := 200, velX := -4, velY := 3,
        paddleL := 310, paddleR := 310, scoreL := 1, scoreR := 2, gameState := 0 } =
      { ballX := 320, ballY := 240, velX := 5, velY := 3,
        paddleL := 310, paddleR := 310, scoreL := 1, scoreR := 3, gameState := 1 } := by
  have h := (C7_respawn_toward_scorer 640 480
    { ballX := 3, ballY := 200, velX := -4, velY := 3,
      paddleL := 310, paddleR := 310, scoreL := 1, scoreR := 2, gameState := 0 } rfl).1
    (by decide)
  simpa using h

/-- Constant `HEAP_SIZE` from allocator.rs: 100 KiB. -/
def HEAP_SIZE : Nat := 100 * 1024

/-- Allocator state: the mutable static `HEAP_START` of allocator.rs,
which serves both as the region base (set once by `init_heap`) and as
the bump pointer (advanced by every allocation). -/
structure AllocState where
  heapStart : Nat
deriving DecidableEq

/-- The function `init_heap` of allocator.rs: stores the offset-adjusted
start of the usable region into `HEAP_START`. -/
def init_heap (offset : Nat) : AllocState :=
  { heapStart := offset }

/-- The method `BumpAllocator::alloc` of allocator.rs: returns the current
`HEAP_START` as the allocation and advances `HEAP_START` by
`layout.size()`; the out-of-memory check compares the advanced value
against the current `HEAP_START + HEAP_SIZE` (the alignment of the
layout is not consulted).  The panic path is modelled as `none`. -/
def alloc (st : AllocState) (size align : Nat) : Option (Nat × AllocState) :=
  let bump_ptr := st.heapStart
  let new_heap_start := st.heapStart + size
  if st.heapStart + HEAP_SIZE < new_heap_start then none
  else some (bump_ptr, { heapStart := new_heap_start })

/-- The method `BumpAllocator::dealloc` of allocator.rs: writes one line
to the serial diagnostic stream and leaves the allocator state untouched. -/
def dealloc (st : AllocState) (ptr : Nat) : AllocState × List String :=
  (st, ["dealloc was called at " ++ toString ptr])

/-- Claim C5, evaluation at the failing input: seeding the heap at base
1048576 and allocating 100 KiB twice (align 1), the first call consumes
the whole region, yet the second call still succeeds — returning the
pointer `base + HEAP_SIZE`, which lies outside the region, and advancing
the offset to `base + 2 * HEAP_SIZE` — because the bound in the code
tracks the moving `HEAP_START` rather than the fixed base, so the check
only ever rejects a single request larger than `HEAP_SIZE`.  The claim
requires the second call to fail with OutOfMemory.  Moreover an
allocation from an odd offset with alignment 8 returns the odd,
unaligned pointer: the requested size is never rounded to the requested
alignment. -/
theorem C5_alloc_escapes_region :
    alloc (init_heap 1048576) (100 * 1024) 1 =
      some (1048576, { heapStart := 1048576 + HEAP_SIZE }) ∧
    alloc { heapStart := 1048576 + HEAP_SIZE } (100 * 1024) 1 =
      some (1048576 + HEAP_SIZE, { heapStart := 1048576 + 2 * HEAP_SIZE }) ∧
    alloc { heapStart := 1048577 } 8 8 = some (1048577, { heapStart := 1048585 }) ∧
    ¬ 8 ∣ 1048577 := by
  decide

/-- Claim C9: deallocation is accepted for every pointer (the operation
is total), performs no reclamation — the allocator state is returned
unchanged — and is observable: the produced diagnostic log is nonempty
rather than silently dropped. -/
theorem C9_dealloc_logged_noop (st : AllocState) (ptr : Nat) :
    (dealloc st ptr).1 = st ∧ (dealloc st ptr).2 ≠ [] := by
  exact ⟨rfl, by simp [dealloc]⟩

/-- Framebuffer model at pixel granularity: the byte buffer of screen.rs,
indexed by the pixel offset `y * stride + x` at which `draw_pixel` writes
the channel bytes of one pixel (an `(r, g, b)` triple here). -/
def FrameBuffer : Type := Nat → Nat × Nat × Nat

/-- The method `ScreenWriter::draw_pixel` of screen.rs restricted to the
pixel it writes: the color lands at pixel offset `y * stride + x`. -/
def draw_pixel (stride : Nat) (fb : FrameBuffer) (x y : Nat) (c : Nat × Nat × Nat) :
    FrameBuffer :=
  fun i => if i = y * stride + x then c else fb i

/-- The method `ScreenWriter::draw_ball` of screen.rs: for each `dx` and
`dy` below `size` it computes `px = x + dx`, `py = y + dy` and draws the
yellow pixel `(0xff, 0xff, 0x00)` only when `px < width` and
`py < height`. -/
def draw_ball (w h stride : Nat) (fb : FrameBuffer) (x y size : Nat) : FrameBuffer :=
  (List.range size).foldl
    (fun fb1 dx =>
      (List.range size).foldl
        (fun fb2 dy =>
          if x + dx < w ∧ y + dy < h then
            draw_pixel stride fb2 (x + dx) (y + dy) (255, 255, 0)
          else fb2)
        fb1)
    fb

/-- Helper: a fold leaves the buffer unchanged at an index that no step
of the fold writes. -/
theorem foldl_preserves_index {α : Type} (t : Nat)
    (g : FrameBuffer → α → FrameBuffer) (hg : ∀ fb a, g fb a t = fb t) :
    ∀ (l : List α) (fb : FrameBuffer), (l.foldl g fb) t = fb t := by
  intro l
  induction l with
  | nil => intro fb; rfl
  | cons a l ih =>
    intro fb
    simp only [List.foldl_cons]
    rw [ih, hg]

/-- Helper: two pixel offsets with in-stride columns coincide only when
both coordinates coincide. -/
theorem pixel_offset_inj {stride a b c d : Nat} (hb : b < stride) (hd : d < stride)
    (heq : a * stride + b = c * stride + d) : a = c ∧ b = d := by
  have hbd : b = d := by
    have h1 : (a * stride + b) % stride = b := by
      rw [Nat.mul_comm, Nat.mul_add_mod, Nat.mod_eq_of_lt hb]
    have h2 : (c * stride + d) % stride = d := by
      rw [Nat.mul_comm, Nat.mul_add_mod, Nat.mod_eq_of_lt hd]
    rw [← h1, heq, h2]
  subst hbd
  have hac : a * stride = c * stride := by omega
  have hs : 0 < stride := Nat.lt_of_le_of_lt (Nat.zero_le b) hb
  exact ⟨Nat.eq_of_mul_eq_mul_right hs hac, rfl⟩

/-- Claim C10: `draw_ball` writes pixels only at coordinates strictly
inside the screen.  For any pixel coordinate `(px, py)` outside the
screen rectangle (with a column inside the stride, so that its pixel
offset denotes it uniquely), the framebuffer cell at offset
`py * stride + px` is untouched, whatever ball position and size are
requested: a ball rectangle reaching past the right or bottom edge is
clipped pixel by pixel instead of indexing out of bounds. -/
theorem C10_draw_ball_clipped (w h stride x y size : Nat) (fb : FrameBuffer)
    (hws : w ≤ stride) (px py : Nat) (hpx : px < stride) (hout : w ≤ px ∨ h ≤ py) :
    draw_ball w h stride fb x y size (py * stride + px) = fb (py * stride + px) := by
  unfold draw_ball
  apply foldl_preserves_index
  intro fb1 dx
  apply foldl_preserves_index
  intro fb2 dy
  by_cases hin : x + dx < w ∧ y + dy < h
  · rw [if_pos hin]
    have hne : ¬ (py * stride + px = (y + dy) * stride + (x + dx)) := by
      intro heq
      have hxd : x + dx < stride := Nat.lt_of_lt_of_le hin.1 hws
      have hco := pixel_offset_inj hpx hxd heq
      rcases hout with hw2 | hh2
      · omega
      · omega
    simp only [draw_pixel]
    rw [if_neg hne]
  · rw [if_neg hin]

/-- Claim C10 witness: the clipping theorem applied to a ball of size 8
at `(636, 476)` on a 640 by 480 screen with stride 640: the pixel at
column 5 of row 480 (just below the screen) keeps its background color. -/
theorem C10_witness :
    draw_ball 640 480 640 (fun _ => (0, 0, 0)) 636 476 8 (480 * 640 + 5) = (0, 0, 0) := by
  have h := C10_draw_ball_clipped 640 480 640 636 476 8 (fun _ => (0, 0, 0))
    (by decide) 5 480 (by decide) (Or.inr (by decide))
  simpa using h
